import Mathlib

/-!
Shallow embedding of the doctor-appointment booking backend.

The embedding covers the parts of the code the claims are about:
the Stripe webhook handler and checkout-session endpoint of the server,
the admin controller (addDoctor, allDoctors, appointmentCancel,
adminDashboard), and the multer upload middleware.

Databases are modelled as id-keyed association lists; `findById` and
`findByIdAndUpdate` model the corresponding Mongoose calls.  External
services (Stripe signature verification, bcrypt, cloudinary, the email
validator, JSON parsing of the address field) are passed in as function
parameters, so every theorem quantifies over their behaviour.
-/

/-- JavaScript truthiness of an optional string request field:
`undefined` (modelled as `none`) and the empty string are falsy. -/
def truthyStr : Option String → Bool
  | none => false
  | some s => !(s == "")

/-- Mongoose `Model.findById`: the first document stored under the id. -/
def findById {α : Type} : List (String × α) → String → Option α
  | [], _ => none
  | p :: tl, id => if p.fst == id then some p.snd else findById tl id

/-- Mongoose `Model.findByIdAndUpdate`: applies the update to the documents
stored under the id and leaves every other document unchanged.  When no
document has the id, the database is unchanged (the call returns null). -/
def findByIdAndUpdate {α : Type} : List (String × α) → String → (α → α) → List (String × α)
  | [], _, _ => []
  | p :: tl, id, f => (if p.fst == id then (p.fst, f p.snd) else p) :: findByIdAndUpdate tl id f

/-- Appointment document, with the fields the backend reads and writes:
owner and doctor foreign keys, the booked slot, and the two status flags. -/
structure Appointment where
  userId : String
  docId : String
  slotDate : String
  slotTime : String
  payment : Bool
  cancelled : Bool
deriving Repr, DecidableEq

/-- Doctor document as assembled by `addDoctor`, plus the ad-hoc
per-date map of booked time strings (`slots_booked`). -/
structure Doctor where
  name : String
  email : String
  image : String
  password : String
  speciality : String
  degree : String
  experience : String
  about : String
  fees : Int
  address : String
  date : Nat
  slots_booked : List (String × List String)
deriving Repr, DecidableEq

/-- User document (only its existence matters to the claims). -/
structure User where
  name : String
deriving Repr, DecidableEq

/-- The appointments collection, keyed by id. -/
abbrev AppointmentDB := List (String × Appointment)

/-- The doctors collection, keyed by id. -/
abbrev DoctorDB := List (String × Doctor)

/-! ### Stripe webhook handler (server `app.post("/webhook")`) -/

/-- The part of a verified Stripe event the handler reads: the event type
and `event.data.object.metadata.appointmentId` (absent when the metadata
has no such key). -/
structure StripeEvent where
  type : String
  appointmentId : Option String
deriving Repr, DecidableEq

/-- Webhook response: `badRequest` is `res.status(400).send(...)`;
`ok` is `res.json` with `received: true` and, on a processing error,
an extra error message field. -/
inductive WebhookRes where
  | badRequest (msg : String)
  | ok (errMsg : Option String)
deriving Repr, DecidableEq

/-- HTTP status of a webhook response (`res.json` defaults to 200). -/
def WebhookRes.status : WebhookRes → Nat
  | .badRequest _ => 400
  | .ok _ => 200

/-- Whether the response body carries `received: true`. -/
def WebhookRes.received : WebhookRes → Bool
  | .badRequest _ => false
  | .ok _ => true

/-- The webhook handler.  `constructEvent` models
`stripe.webhooks.constructEvent` applied to the raw body, the
`stripe-signature` header and the shared secret (an `Except.error` models a
throw).  A missing `STRIPE_WEBHOOK_SECRET` throws before verification; any
throw in the verification block is answered with status 400 and nothing
else happens.  For a verified `checkout.session.completed` event the
handler runs `findByIdAndUpdate(appointmentId, \x7b payment: true \x7d)`; a falsy
`appointmentId` or a null update result throws inside the processing block,
which is caught and still answered with `received: true`. -/
def webhookHandler
    (constructEvent : String → Option String → String → Except String StripeEvent)
    (webhookSecret : Option String) (body : String) (sig : Option String)
    (db : AppointmentDB) : WebhookRes × AppointmentDB :=
  match webhookSecret with
  | none => (.badRequest "Webhook Error: Missing Stripe webhook secret", db)
  | some secret =>
    match constructEvent body sig secret with
    | .error e => (.badRequest ("Webhook Error: " ++ e), db)
    | .ok event =>
      if event.type = "checkout.session.completed" then
        match event.appointmentId with
        | none => (.ok (some "No appointmentId found in session metadata"), db)
        | some aid =>
          if aid = "" then (.ok (some "No appointmentId found in session metadata"), db)
          else
            let db2 := findByIdAndUpdate db aid (fun a => { a with payment := true })
            match findById db2 aid with
            | none => (.ok (some ("Appointment " ++ aid ++ " not found")), db2)
            | some _ => (.ok none, db2)
      else
        (.ok none, db)

/-! ### Admin controller (adminController.js) -/

/-- Generic JSON response of the admin controllers: HTTP status (200 when
the code calls `res.json` without `res.status`), the `success` flag, and the
optional `message` and `error` body fields (`none` models an absent key). -/
structure ApiRes where
  status : Nat
  success : Bool
  message : Option String
  errMsg : Option String
deriving Repr, DecidableEq

/-- The collections the admin controller touches. -/
structure AdminState where
  appointments : AppointmentDB
  doctors : DoctorDB
deriving Repr, DecidableEq

/-- Request body of `appointmentCancel` (fields may be absent). -/
structure CancelReq where
  userId : Option String
  appointmentId : Option String
deriving Repr, DecidableEq

/-- Slot release step of `appointmentCancel`: when `slots_booked` has an
array under the appointment's `slotDate`, every occurrence of the
appointment's `slotTime` is filtered out of it; otherwise nothing changes. -/
def releaseSlot (slotDate slotTime : String) (sb : List (String × List String)) :
    List (String × List String) :=
  match findById sb slotDate with
  | none => sb
  | some arr => findByIdAndUpdate sb slotDate (fun _ => arr.filter (fun e => !(e == slotTime)))

/-- The `appointmentCancel` controller.  `dbFail` models a throw from the
database layer at the start of the `try` block: `some e` lands in the
`catch`, which answers status 500 with the error message.  Otherwise the
controller validates the request, marks the appointment cancelled, and then
releases the doctor's time slot in a second independent write: it filters
the appointment's `slotTime` out of `slots_booked[slotDate]` (when that key
is present) and stores the result with `findByIdAndUpdate`. -/
def appointmentCancel (dbFail : Option String) (req : CancelReq) (st : AdminState) :
    ApiRes × AdminState :=
  match dbFail with
  | some e => ({ status := 500, success := false, message := some e, errMsg := none }, st)
  | none =>
    if !(truthyStr req.userId) || !(truthyStr req.appointmentId) then
      ({ status := 400, success := false, message := some "Missing userId or appointmentId",
         errMsg := none }, st)
    else
      match req.userId, req.appointmentId with
      | some userId, some appointmentId =>
        match findById st.appointments appointmentId with
        | none =>
          ({ status := 404, success := false, message := some "Appointment not found",
             errMsg := none }, st)
        | some appointmentData =>
          if appointmentData.userId = "" then
            ({ status := 500, success := false, message := some "Appointment data is corrupted",
               errMsg := none }, st)
          else if appointmentData.userId ≠ userId then
            ({ status := 403, success := false, message := some "Unauthorized Action",
               errMsg := none }, st)
          else
            let appts := findByIdAndUpdate st.appointments appointmentId
              (fun a => { a with cancelled := true })
            match findById st.doctors appointmentData.docId with
            | none =>
              ({ status := 404, success := false, message := some "Doctor not found",
                 errMsg := none },
               { st with appointments := appts })
            | some doctorData =>
              let sb2 := releaseSlot appointmentData.slotDate appointmentData.slotTime
                doctorData.slots_booked
              let docs := findByIdAndUpdate st.doctors appointmentData.docId
                (fun d => { d with slots_booked := sb2 })
              ({ status := 200, success := true, message := some "Appointment Cancelled",
                 errMsg := none },
               { appointments := appts, doctors := docs })
      | _, _ =>
        ({ status := 400, success := false, message := some "Missing userId or appointmentId",
           errMsg := none }, st)

/-- JavaScript `String.prototype.startsWith`, computed on the characters. -/
def strStartsWith (s pre : String) : Bool :=
  pre.toList.isPrefixOf s.toList

/-- Whitespace as removed by JavaScript `String.prototype.trim`. -/
def isJsSpace (c : Char) : Bool :=
  c == ' ' || c == '\t' || c == '\n' || c == '\r'

/-- JavaScript `String.prototype.trim` on a character list. -/
def trimChars (cs : List Char) : List Char :=
  ((cs.dropWhile isJsSpace).reverse.dropWhile isJsSpace).reverse

/-- Helper of the admin controller: strips one leading and one trailing
double-quote character (the regex replaces each anchored match once) and
trims surrounding whitespace. -/
def cleanQuotes (s : String) : String :=
  let cs := s.toList
  let cs1 := if cs.head? = some '"' then cs.drop 1 else cs
  let cs2 := if cs1.getLast? = some '"' then cs1.dropLast else cs1
  String.mk (trimChars cs2)

/-- Request reaching `addDoctor`: the multipart form fields (each possibly
absent) and the uploaded file recorded by multer (`req.file`). -/
structure AddDoctorReq where
  name : Option String
  email : Option String
  password : Option String
  speciality : Option String
  degree : Option String
  experience : Option String
  about : Option String
  fees : Option String
  address : Option String
  hasFile : Bool
deriving Repr, DecidableEq

/-- Cleaned value of a form field: `cleanQuotes` applied when the field is
present, the empty string standing for a missing (falsy) field. -/
def cleanedField (f : Option String) : String :=
  match f with
  | none => ""
  | some s => cleanQuotes s

/-- The `addDoctor` controller.  External behaviour is passed in:
`isEmail` is `validator.isEmail`, `hash` is `bcrypt.hash` with the generated
salt, `imageUrl` is the secure URL returned by the cloudinary upload,
`parseAddress` is `JSON.parse` on the address string (`none` models a
throw), `toNumber` is the JS `Number` conversion of the fees string, `now`
is `Date.now()` and `newId` the id Mongo assigns on save.  The gates run in
source order: uploaded file present, all nine fields truthy, email format,
password length at least 8, no doctor with the same email; each failing
gate answers status 400 and creates nothing.  On success the doctor is
stored with the hashed password and the controller answers 201. -/
def addDoctor (dbFail : Option String) (isEmail : String → Bool) (hash : String → String)
    (imageUrl : String) (parseAddress : String → Option String) (toNumber : String → Int)
    (now : Nat) (newId : String) (req : AddDoctorReq) (doctors : DoctorDB) :
    ApiRes × DoctorDB :=
  match dbFail with
  | some e =>
    ({ status := 500, success := false, message := some "Internal server error",
       errMsg := some e }, doctors)
  | none =>
    let name := cleanedField req.name
    let email := cleanedField req.email
    let password := cleanedField req.password
    let speciality := cleanedField req.speciality
    let degree := cleanedField req.degree
    let experience := cleanedField req.experience
    let about := cleanedField req.about
    let fees := cleanedField req.fees
    let address := req.address.getD ""
    if !req.hasFile then
      ({ status := 400, success := false, message := some "Image file is required",
         errMsg := none }, doctors)
    else if name = "" || email = "" || password = "" || speciality = "" || degree = ""
        || experience = "" || about = "" || fees = "" || address = "" then
      ({ status := 400, success := false, message := some "Missing Details",
         errMsg := none }, doctors)
    else if !(isEmail email) then
      ({ status := 400, success := false, message := some "Please enter a valid email",
         errMsg := none }, doctors)
    else if password.length < 8 then
      ({ status := 400, success := false,
         message := some "Password must be at least 8 characters long", errMsg := none }, doctors)
    else if doctors.any (fun p => p.snd.email == email) then
      ({ status := 400, success := false,
         message := some "Doctor with this email already exists", errMsg := none }, doctors)
    else
      let hashedPassword := hash password
      match parseAddress address with
      | none =>
        ({ status := 400, success := false,
           message := some "Invalid address format. Please provide a valid JSON object",
           errMsg := none }, doctors)
      | some parsedAddress =>
        let d : Doctor :=
          { name := name, email := email, image := imageUrl, password := hashedPassword,
            speciality := speciality, degree := degree, experience := experience,
            about := about, fees := toNumber fees, address := parsedAddress, date := now,
            slots_booked := [] }
        ({ status := 201, success := true, message := some "Doctor added successfully",
           errMsg := none }, doctors ++ [(newId, d)])

/-- Response of the checkout-session endpoint: `res.json` carries
`success` and, on success, `sessionId`; the `catch` answers status 500 with
the error message under the `error` key.  The body of this endpoint never
has a `message` key, so that field is always `none`. -/
structure CheckoutRes where
  status : Nat
  success : Bool
  sessionId : Option String
  message : Option String
  errMsg : Option String
deriving Repr, DecidableEq

/-- The `/api/create-checkout-session` endpoint.  `stripeCreate` models
`stripe.checkout.sessions.create` (ok: the session id; error: a throw).
A falsy `appointmentId` in the body throws, landing in the same `catch`:
status 500 and a body of the form success false plus an `error` field. -/
def createCheckoutSession (stripeCreate : Except String String)
    (appointmentId : Option String) : CheckoutRes :=
  if !(truthyStr appointmentId) then
    { status := 500, success := false, sessionId := none, message := none,
      errMsg := some "Missing appointmentId in request body" }
  else
    match stripeCreate with
    | .error e =>
      { status := 500, success := false, sessionId := none, message := none, errMsg := some e }
    | .ok sid =>
      { status := 200, success := true, sessionId := some sid, message := none, errMsg := none }

/-- A doctor document as returned by `find(\x7b\x7d).select("-password")`:
every schema field except the password. -/
structure PublicDoctor where
  name : String
  email : String
  image : String
  speciality : String
  degree : String
  experience : String
  about : String
  fees : Int
  address : String
  date : Nat
  slots_booked : List (String × List String)
deriving Repr, DecidableEq

/-- Projection performed by `.select("-password")`. -/
def stripPassword (d : Doctor) : PublicDoctor :=
  { name := d.name, email := d.email, image := d.image, speciality := d.speciality,
    degree := d.degree, experience := d.experience, about := d.about, fees := d.fees,
    address := d.address, date := d.date, slots_booked := d.slots_booked }

/-- Response of `allDoctors`: on success the password-stripped doctor list,
on a database throw `res.json` (status 200) with success false and the
error message. -/
structure AllDoctorsRes where
  status : Nat
  success : Bool
  message : Option String
  doctors : Option (List PublicDoctor)
deriving Repr, DecidableEq

/-- The `allDoctors` controller: `doctorModel.find(\x7b\x7d).select("-password")`,
answered as success true with the projected list. -/
def allDoctors (dbFail : Option String) (doctors : DoctorDB) : AllDoctorsRes :=
  match dbFail with
  | some e => { status := 200, success := false, message := some e, doctors := none }
  | none =>
    { status := 200, success := true, message := none,
      doctors := some (doctors.map (fun p => stripPassword p.snd)) }

/-- The `appointmentsAdmin` controller: the full appointment list. -/
def appointmentsAdmin (dbFail : Option String) (appointments : AppointmentDB) :
    ApiRes × Option (List Appointment) :=
  match dbFail with
  | some e => ({ status := 200, success := false, message := some e, errMsg := none }, none)
  | none =>
    ({ status := 200, success := true, message := none, errMsg := none },
     some (appointments.map Prod.snd))

/-- The `dashData` object assembled by `adminDashboard`. -/
structure DashData where
  doctors : Nat
  appointments : Nat
  patients : Nat
  latestAppointments : List Appointment
deriving Repr, DecidableEq

/-- Response of `adminDashboard`. -/
structure DashRes where
  status : Nat
  success : Bool
  message : Option String
  dashData : Option DashData
deriving Repr, DecidableEq

/-- The `adminDashboard` controller: counts the three collections and takes
`appointments.reverse().slice(0, 5)` as the latest appointments. -/
def adminDashboard (dbFail : Option String) (doctors : DoctorDB) (users : List User)
    (appointments : AppointmentDB) : DashRes :=
  match dbFail with
  | some e => { status := 200, success := false, message := some e, dashData := none }
  | none =>
    let appts := appointments.map Prod.snd
    { status := 200, success := true, message := none,
      dashData := some
        { doctors := doctors.length, appointments := appts.length, patients := users.length,
          latestAppointments := (appts.reverse).take 5 } }

/-! ### Upload middleware (multer configuration) -/

/-- Outcome of the multer file filter callback. -/
inductive FilterOutcome where
  | accepted
  | rejected (err : String)
deriving Repr, DecidableEq

/-- The `fileFilter` of the upload middleware: accepts exactly the files
whose mimetype starts with "image/", and rejects everything else with an
error. -/
def fileFilter (mimetype : String) : FilterOutcome :=
  if strStartsWith mimetype "image/" then .accepted
  else .rejected "Not an image! Please upload an image."

/-- The `limits.fileSize` option of the multer configuration. -/
def uploadFileSizeLimit : Nat := 1024 * 1024 * 5

/-- Node's `path.extname`: the substring from the last dot to the end,
empty when there is no dot or the only dot starts the name. -/
def extname (s : String) : String :=
  let cs := s.toList
  match cs.reverse.findIdx? (fun c => c == '.') with
  | none => ""
  | some k =>
    let i := cs.length - 1 - k
    if i = 0 then "" else String.mk (cs.drop i)

/-- The generated filename of the disk storage engine:
`fieldname-<timestamp>-<random>` followed by the original extension, where
the unique suffix is `Date.now()` and a rounded random number. -/
def uploadFilename (fieldname : String) (originalname : String) (timestamp rand : Nat) :
    String :=
  fieldname ++ "-" ++ toString timestamp ++ "-" ++ toString rand ++ extname originalname

/-! ### Sample data used by the witnesses -/

/-- Sample appointment stored under id "a1". -/
def sampleAppointment : Appointment :=
  { userId := "u1", docId := "d1", slotDate := "1_1_2026", slotTime := "10:00",
    payment := false, cancelled := false }

/-- Second sample appointment stored under id "a2". -/
def sampleAppointment2 : Appointment :=
  { userId := "u2", docId := "d1", slotDate := "2_1_2026", slotTime := "09:00",
    payment := false, cancelled := false }

/-- Sample appointments collection. -/
def sampleAppointmentDB : AppointmentDB :=
  [("a1", sampleAppointment), ("a2", sampleAppointment2)]

/-- Sample doctor with two dates of booked slots. -/
def sampleDoctor : Doctor :=
  { name := "Dr A", email := "a@ex.com", image := "img", password := "hashed",
    speciality := "gp", degree := "MD", experience := "4 Years", about := "about",
    fees := 50, address := "addr", date := 0,
    slots_booked := [("1_1_2026", ["09:00", "10:00", "11:00", "10:00"]),
                     ("2_1_2026", ["08:00"])] }

/-- Verification routine that always throws. -/
def failingConstructEvent : String → Option String → String → Except String StripeEvent :=
  fun _ _ _ => Except.error "bad signature"

/-- Verification routine that always yields the given event. -/
def okConstructEvent (ev : StripeEvent) :
    String → Option String → String → Except String StripeEvent :=
  fun _ _ _ => Except.ok ev

/-- Sample addDoctor request with every field present (the name carries
the surrounding quotes that `cleanQuotes` strips). -/
def sampleAddReq : AddDoctorReq :=
  { name := some "\"John Doe\"", email := some "john@example.com",
    password := some "password123", speciality := some "gp", degree := some "MD",
    experience := some "4 Years", about := some "about", fees := some "50",
    address := some "addr", hasFile := true }

/-- Email validator accepting everything (sample external behaviour). -/
def constTrueEmail : String → Bool := fun _ => true

/-- Sample hash function that tags its input. -/
def tagHash : String → String := fun s => "H:" ++ s

/-- Sample address parser that succeeds with the raw string. -/
def idParseAddress : String → Option String := fun s => some s

/-- Sample fees conversion. -/
def constFees : String → Int := fun _ => 50

/-- The per-date array of booked slots of a doctor (empty when the key is
absent from `slots_booked`). -/
def slotsAt (sb : List (String × List String)) (k : String) : List String :=
  (findById sb k).getD []

/-! ### Helper lemmas -/

theorem findById_findByIdAndUpdate_self {α : Type} (db : List (String × α)) (id : String)
    (f : α → α) :
    findById (findByIdAndUpdate db id f) id = (findById db id).map f := by
  induction db with
  | nil => rfl
  | cons p tl ih =>
    by_cases h : p.fst = id
    · simp [findById, findByIdAndUpdate, h]
    · simpa [findById, findByIdAndUpdate, h] using ih

theorem findById_findByIdAndUpdate_other {α : Type} (db : List (String × α)) (id k : String)
    (f : α → α) (hk : k ≠ id) :
    findById (findByIdAndUpdate db id f) k = findById db k := by
  induction db with
  | nil => rfl
  | cons p tl ih =>
    by_cases h : p.fst = id
    · have hpk : ¬ id = k := fun hc => hk hc.symm
      simpa [findById, findByIdAndUpdate, h, hpk] using ih
    · by_cases h2 : p.fst = k
      · simp [findById, findByIdAndUpdate, h, h2, hk]
      · simpa [findById, findByIdAndUpdate, h, h2] using ih

theorem findByIdAndUpdate_absent {α : Type} (db : List (String × α)) (id : String)
    (f : α → α) (h : findById db id = none) :
    findByIdAndUpdate db id f = db := by
  induction db with
  | nil => rfl
  | cons p tl ih =>
    by_cases hp : p.fst = id
    · simp [findById, hp] at h
    · simp [findById, hp] at h
      simp [findByIdAndUpdate, hp, ih h]


/-! ### Claims -/

/-- C1: the webhook handler updates an appointment's payment flag only
after signature verification succeeds; whenever verification throws
(invalid signature, or a missing webhook secret) it answers HTTP 400 and
leaves the appointment collection untouched. -/
theorem C1_webhook_verification_gate
    (constructEvent : String → Option String → String → Except String StripeEvent)
    (webhookSecret : Option String) (body : String) (sig : Option String)
    (db : AppointmentDB)
    (h : webhookSecret = none ∨
      ∃ s e, webhookSecret = some s ∧ constructEvent body sig s = Except.error e) :
    (webhookHandler constructEvent webhookSecret body sig db).fst.status = 400 ∧
    (webhookHandler constructEvent webhookSecret body sig db).snd = db := by
  rcases h with h | ⟨s, e, hs, he⟩
  · subst h
    exact ⟨rfl, rfl⟩
  · subst hs
    simp [webhookHandler, he, WebhookRes.status]

/-- Witness for C1: a concrete request whose signature verification throws
is answered 400 and the concrete database is returned unchanged. -/
theorem C1_webhook_verification_gate_witness :
    (webhookHandler failingConstructEvent (some "whsec") "rawbody" (some "sig")
        sampleAppointmentDB).fst.status = 400 ∧
    (webhookHandler failingConstructEvent (some "whsec") "rawbody" (some "sig")
        sampleAppointmentDB).snd = sampleAppointmentDB :=
  C1_webhook_verification_gate failingConstructEvent (some "whsec") "rawbody" (some "sig")
    sampleAppointmentDB (Or.inr ⟨"whsec", "bad signature", rfl, rfl⟩)

/-- C5: whenever signature verification succeeds the handler answers
status 200 with a body carrying received true, for every event — including
the processing-error cases (metadata without an appointmentId, referenced
appointment missing), whose recovery is only to log. -/
theorem C5_webhook_verified_always_200
    (constructEvent : String → Option String → String → Except String StripeEvent)
    (webhookSecret : Option String) (body : String) (sig : Option String)
    (db : AppointmentDB) (s : String) (ev : StripeEvent)
    (hs : webhookSecret = some s) (hce : constructEvent body sig s = Except.ok ev) :
    (webhookHandler constructEvent webhookSecret body sig db).fst.status = 200 ∧
    (webhookHandler constructEvent webhookSecret body sig db).fst.received = true := by
  subst hs
  rcases ev with ⟨t, aid⟩
  by_cases ht : t = "checkout.session.completed"
  · cases aid with
    | none => simp [webhookHandler, hce, ht, WebhookRes.status, WebhookRes.received]
    | some a =>
      by_cases ha : a = ""
      · simp [webhookHandler, hce, ht, ha, WebhookRes.status, WebhookRes.received]
      · rcases hfind : findById (findByIdAndUpdate db a (fun x => { x with payment := true })) a
          with _ | _ <;>
          simp [webhookHandler, hce, ht, ha, hfind, WebhookRes.status, WebhookRes.received]
  · simp [webhookHandler, hce, ht, WebhookRes.status, WebhookRes.received]

/-- Witness for C5: a verified completed-checkout event whose metadata has
no appointmentId — a processing error — is still answered 200 with
received true. -/
theorem C5_webhook_verified_always_200_witness :
    (webhookHandler (okConstructEvent ⟨"checkout.session.completed", none⟩) (some "whsec")
        "rawbody" (some "sig") sampleAppointmentDB).fst.status = 200 ∧
    (webhookHandler (okConstructEvent ⟨"checkout.session.completed", none⟩) (some "whsec")
        "rawbody" (some "sig") sampleAppointmentDB).fst.received = true :=
  C5_webhook_verified_always_200 (okConstructEvent ⟨"checkout.session.completed", none⟩)
    (some "whsec") "rawbody" (some "sig") sampleAppointmentDB "whsec"
    ⟨"checkout.session.completed", none⟩ rfl rfl

/-- C7: the upload middleware accepts a file iff its mimetype starts with
"image/" and rejects every other file with an error, limits the file size
to 1024*1024*5 bytes, and generates filenames of the form
fieldname-timestamp-random followed by the original extension. -/
theorem C7_upload_middleware :
    (∀ m, fileFilter m = FilterOutcome.accepted ↔ strStartsWith m "image/" = true) ∧
    (∀ m, strStartsWith m "image/" = false →
      fileFilter m = FilterOutcome.rejected "Not an image! Please upload an image.") ∧
    uploadFileSizeLimit = 1024 * 1024 * 5 ∧
    (∀ f o t r, uploadFilename f o t r
      = (f ++ "-" ++ toString t ++ "-" ++ toString r) ++ extname o) := by
  refine ⟨fun m => ?_, fun m hm => ?_, rfl, fun f o t r => ?_⟩
  · by_cases h : strStartsWith m "image/" <;> simp [fileFilter, h]
  · simp [fileFilter, hm]
  · simp [uploadFilename, String.append_assoc]

/-- Witness for C7: the filter accepts "image/png" and rejects
"application/pdf"; a png keeps its extension in the generated name. -/
theorem C7_upload_middleware_witness :
    fileFilter "image/png" = FilterOutcome.accepted ∧
    fileFilter "application/pdf" = FilterOutcome.rejected
      "Not an image! Please upload an image." ∧
    uploadFilename "image" "photo.png" 123 456
      = ("image" ++ "-" ++ toString 123 ++ "-" ++ toString 456) ++ extname "photo.png" :=
  ⟨(C7_upload_middleware.1 "image/png").mpr (by decide),
   C7_upload_middleware.2.1 "application/pdf" (by decide),
   C7_upload_middleware.2.2.2 "image" "photo.png" 123 456⟩

/-- C2: for a verified event of type checkout.session.completed whose
metadata carries the id of an existing appointment, the handler sets that
appointment's payment field to true leaving its every other field and
every other record unchanged; for every other event type it performs no
database update at all. -/
theorem C2_webhook_event_effect
    (constructEvent : String → Option String → String → Except String StripeEvent)
    (webhookSecret : Option String) (body : String) (sig : Option String)
    (db : AppointmentDB) (s : String) (ev : StripeEvent)
    (hs : webhookSecret = some s) (hce : constructEvent body sig s = Except.ok ev) :
    (∀ aid a, ev.type = "checkout.session.completed" → ev.appointmentId = some aid →
      aid ≠ "" → findById db aid = some a →
      findById (webhookHandler constructEvent webhookSecret body sig db).snd aid
          = some { a with payment := true } ∧
      (∀ k, k ≠ aid →
        findById (webhookHandler constructEvent webhookSecret body sig db).snd k
          = findById db k)) ∧
    (ev.type ≠ "checkout.session.completed" →
      (webhookHandler constructEvent webhookSecret body sig db).snd = db) := by
  subst hs
  constructor
  · intro aid a ht haid hne hfound
    have hself := findById_findByIdAndUpdate_self db aid
      (fun x => { x with payment := true })
    rw [hfound] at hself
    have hsnd : (webhookHandler constructEvent (some s) body sig db).snd
        = findByIdAndUpdate db aid (fun x => { x with payment := true }) := by
      simp [webhookHandler, hce, ht, haid, hne, hself]
    refine ⟨?_, fun k hk => ?_⟩
    · rw [hsnd, hself]
      rfl
    · rw [hsnd]
      exact findById_findByIdAndUpdate_other db aid k _ hk
  · intro ht
    simp [webhookHandler, hce, ht]

/-- Witness for C2: on the sample database a verified completed-checkout
event for appointment "a1" marks it paid and leaves "a2" untouched. -/
theorem C2_webhook_event_effect_witness :
    findById (webhookHandler (okConstructEvent ⟨"checkout.session.completed", some "a1"⟩)
        (some "whsec") "rawbody" (some "sig") sampleAppointmentDB).snd "a1"
      = some { sampleAppointment with payment := true } ∧
    findById (webhookHandler (okConstructEvent ⟨"checkout.session.completed", some "a1"⟩)
        (some "whsec") "rawbody" (some "sig") sampleAppointmentDB).snd "a2"
      = findById sampleAppointmentDB "a2" := by
  have h := (C2_webhook_event_effect
    (okConstructEvent ⟨"checkout.session.completed", some "a1"⟩)
    (some "whsec") "rawbody" (some "sig") sampleAppointmentDB "whsec"
    ⟨"checkout.session.completed", some "a1"⟩ rfl rfl).1 "a1" sampleAppointment
    rfl rfl (by decide) (by decide)
  exact ⟨h.1, h.2 "a2" (by decide)⟩

/-- C3: no transactional guarantee between the two writes of
appointmentCancel: when the appointment exists and belongs to the
requester but its docId matches no doctor record, the appointment is
already marked cancelled while no doctor document changes, and the
response reports failure with 404 "Doctor not found". -/
theorem C3_cancel_no_transaction (st : AdminState) (uid aid : String) (a : Appointment)
    (huid : uid ≠ "") (haid : aid ≠ "")
    (h1 : findById st.appointments aid = some a) (h2 : a.userId = uid)
    (h3 : findById st.doctors a.docId = none) :
    (appointmentCancel none { userId := some uid, appointmentId := some aid } st).fst
      = { status := 404, success := false, message := some "Doctor not found",
          errMsg := none } ∧
    findById (appointmentCancel none { userId := some uid, appointmentId := some aid }
        st).snd.appointments aid = some { a with cancelled := true } ∧
    (appointmentCancel none { userId := some uid, appointmentId := some aid }
        st).snd.doctors = st.doctors := by
  have hne : a.userId ≠ "" := by rw [h2]; exact huid
  have hself := findById_findByIdAndUpdate_self st.appointments aid
    (fun x => { x with cancelled := true })
  rw [h1] at hself
  simp [appointmentCancel, truthyStr, huid, haid, h1, h2, h3, hne, hself]

/-- Witness for C3: a concrete state whose doctors collection is empty. -/
theorem C3_cancel_no_transaction_witness :
    (appointmentCancel none { userId := some "u1", appointmentId := some "a1" }
        { appointments := sampleAppointmentDB, doctors := [] }).fst
      = { status := 404, success := false, message := some "Doctor not found",
          errMsg := none } ∧
    findById (appointmentCancel none { userId := some "u1", appointmentId := some "a1" }
        { appointments := sampleAppointmentDB, doctors := [] }).snd.appointments "a1"
      = some { sampleAppointment with cancelled := true } ∧
    (appointmentCancel none { userId := some "u1", appointmentId := some "a1" }
        { appointments := sampleAppointmentDB, doctors := [] }).snd.doctors = [] :=
  C3_cancel_no_transaction { appointments := sampleAppointmentDB, doctors := [] }
    "u1" "a1" sampleAppointment (by decide) (by decide) (by decide) rfl rfl

theorem slotsAt_releaseSlot_self (sb : List (String × List String)) (k t : String) :
    slotsAt (releaseSlot k t sb) k = (slotsAt sb k).filter (fun e => !(e == t)) := by
  rcases h : findById sb k with _ | arr
  · simp [releaseSlot, slotsAt, h]
  · have h2 := findById_findByIdAndUpdate_self sb k (fun _ => arr.filter (fun e => !(e == t)))
    rw [h] at h2
    simp [releaseSlot, slotsAt, h, h2]

theorem findById_releaseSlot_other (sb : List (String × List String)) (k t k2 : String)
    (hk : k2 ≠ k) : findById (releaseSlot k t sb) k2 = findById sb k2 := by
  rcases h : findById sb k with _ | arr
  · simp [releaseSlot, h]
  · simp [releaseSlot, h, findById_findByIdAndUpdate_other sb k k2 _ hk]

/-- C4: on a successful cancellation (appointment exists, is owned by the
requester, doctor exists) the doctor's per-date slot array for the
appointment's slotDate afterwards has no occurrence of the slotTime, is a
sublist of the old array (relative order kept), keeps the multiplicity of
every other time string, and every other date key is unchanged; the
response is success "Appointment Cancelled". -/
theorem C4_cancel_releases_slot (st : AdminState) (uid aid : String) (a : Appointment)
    (d : Doctor) (huid : uid ≠ "") (haid : aid ≠ "")
    (h1 : findById st.appointments aid = some a) (h2 : a.userId = uid)
    (h3 : findById st.doctors a.docId = some d) :
    (appointmentCancel none { userId := some uid, appointmentId := some aid } st).fst
      = { status := 200, success := true, message := some "Appointment Cancelled",
          errMsg := none } ∧
    ∃ d2, findById (appointmentCancel none { userId := some uid, appointmentId := some aid }
          st).snd.doctors a.docId = some d2 ∧
      (∀ t ∈ slotsAt d2.slots_booked a.slotDate, t ≠ a.slotTime) ∧
      (slotsAt d2.slots_booked a.slotDate).Sublist (slotsAt d.slots_booked a.slotDate) ∧
      (∀ t, t ≠ a.slotTime → (slotsAt d2.slots_booked a.slotDate).count t
          = (slotsAt d.slots_booked a.slotDate).count t) ∧
      (∀ k, k ≠ a.slotDate → findById d2.slots_booked k = findById d.slots_booked k) := by
  have hne : a.userId ≠ "" := by rw [h2]; exact huid
  have hres : appointmentCancel none { userId := some uid, appointmentId := some aid } st
      = ({ status := 200, success := true, message := some "Appointment Cancelled",
           errMsg := none },
         { appointments := findByIdAndUpdate st.appointments aid
             (fun x => { x with cancelled := true }),
           doctors := findByIdAndUpdate st.doctors a.docId
             (fun d0 => { d0 with
                          slots_booked := releaseSlot a.slotDate a.slotTime d.slots_booked }) }) := by
    simp [appointmentCancel, truthyStr, huid, haid, h1, h2, h3, hne]
  have hdocs := findById_findByIdAndUpdate_self st.doctors a.docId
    (fun d0 => { d0 with slots_booked := releaseSlot a.slotDate a.slotTime d.slots_booked })
  rw [h3] at hdocs
  rw [hres]
  refine ⟨rfl, _, hdocs, ?_, ?_, ?_, ?_⟩
  · intro t ht
    rw [slotsAt_releaseSlot_self] at ht
    have := List.of_mem_filter ht
    simpa using this
  · rw [slotsAt_releaseSlot_self]
    exact List.filter_sublist _
  · intro t ht
    rw [slotsAt_releaseSlot_self]
    exact List.count_filter (by simpa using ht)
  · intro k hk
    exact findById_releaseSlot_other d.slots_booked a.slotDate a.slotTime k hk

/-- Witness for C4: cancelling the sample appointment removes both "10:00"
entries from the doctor's 1_1_2026 slot array and keeps the other date. -/
theorem C4_cancel_releases_slot_witness :
    (appointmentCancel none { userId := some "u1", appointmentId := some "a1" }
        { appointments := sampleAppointmentDB, doctors := [("d1", sampleDoctor)] }).fst
      = { status := 200, success := true, message := some "Appointment Cancelled",
          errMsg := none } ∧
    ∃ d2, findById (appointmentCancel none { userId := some "u1", appointmentId := some "a1" }
          { appointments := sampleAppointmentDB,
            doctors := [("d1", sampleDoctor)] }).snd.doctors "d1" = some d2 ∧
      (∀ t ∈ slotsAt d2.slots_booked "1_1_2026", t ≠ "10:00") ∧
      (slotsAt d2.slots_booked "1_1_2026").Sublist (slotsAt sampleDoctor.slots_booked "1_1_2026") ∧
      (∀ t, t ≠ "10:00" → (slotsAt d2.slots_booked "1_1_2026").count t
          = (slotsAt sampleDoctor.slots_booked "1_1_2026").count t) ∧
      (∀ k, k ≠ "1_1_2026" → findById d2.slots_booked k
          = findById sampleDoctor.slots_booked k) :=
  C4_cancel_releases_slot
    { appointments := sampleAppointmentDB, doctors := [("d1", sampleDoctor)] }
    "u1" "a1" sampleAppointment sampleDoctor (by decide) (by decide) (by decide) rfl
    (by decide)

/-- C6: a created doctor record stores the bcrypt hash of the
quote-cleaned request password, and its creation implies every validation
gate passed (file present, all nine fields non-empty, email format,
password length at least 8, no doctor with the same email); any request
failing one of these gates is answered 400 and creates no record. -/
theorem C6_addDoctor_gates_and_hash
    (isEmail : String → Bool) (hash : String → String) (imageUrl : String)
    (parseAddress : String → Option String) (toNumber : String → Int)
    (now : Nat) (newId : String) (req : AddDoctorReq) (doctors : DoctorDB) :
    ((addDoctor none isEmail hash imageUrl parseAddress toNumber now newId req
        doctors).fst.success = true →
      req.hasFile = true ∧
      cleanedField req.name ≠ "" ∧ cleanedField req.email ≠ "" ∧
      cleanedField req.password ≠ "" ∧ cleanedField req.speciality ≠ "" ∧
      cleanedField req.degree ≠ "" ∧ cleanedField req.experience ≠ "" ∧
      cleanedField req.about ≠ "" ∧ cleanedField req.fees ≠ "" ∧
      req.address.getD "" ≠ "" ∧
      isEmail (cleanedField req.email) = true ∧
      8 ≤ (cleanedField req.password).length ∧
      doctors.any (fun p => p.snd.email == cleanedField req.email) = false ∧
      ∃ d, (addDoctor none isEmail hash imageUrl parseAddress toNumber now newId req
          doctors).snd = doctors ++ [(newId, d)] ∧
        d.password = hash (cleanedField req.password) ∧
        (hash (cleanedField req.password) ≠ cleanedField req.password →
          d.password ≠ cleanedField req.password)) ∧
    ((req.hasFile = false ∨ cleanedField req.name = "" ∨ cleanedField req.email = "" ∨
        cleanedField req.password = "" ∨ cleanedField req.speciality = "" ∨
        cleanedField req.degree = "" ∨ cleanedField req.experience = "" ∨
        cleanedField req.about = "" ∨ cleanedField req.fees = "" ∨
        req.address.getD "" = "" ∨
        isEmail (cleanedField req.email) = false ∨
        (cleanedField req.password).length < 8 ∨
        doctors.any (fun p => p.snd.email == cleanedField req.email) = true) →
      (addDoctor none isEmail hash imageUrl parseAddress toNumber now newId req
          doctors).fst.status = 400 ∧
      (addDoctor none isEmail hash imageUrl parseAddress toNumber now newId req
          doctors).snd = doctors) := by
  by_cases hf : req.hasFile
  case neg =>
    refine ⟨fun hs => absurd hs ?_, fun _ => ?_⟩ <;> simp [addDoctor, hf]
  case pos =>
  by_cases hn : cleanedField req.name = ""
  case pos =>
    refine ⟨fun hs => absurd hs ?_, fun _ => ?_⟩ <;> simp [addDoctor, hf, hn]
  case neg =>
  by_cases he : cleanedField req.email = ""
  case pos =>
    refine ⟨fun hs => absurd hs ?_, fun _ => ?_⟩ <;> simp [addDoctor, hf, hn, he]
  case neg =>
  by_cases hp : cleanedField req.password = ""
  case pos =>
    refine ⟨fun hs => absurd hs ?_, fun _ => ?_⟩ <;> simp [addDoctor, hf, hn, he, hp]
  case neg =>
  by_cases hsp : cleanedField req.speciality = ""
  case pos =>
    refine ⟨fun hs => absurd hs ?_, fun _ => ?_⟩ <;> simp [addDoctor, hf, hn, he, hp, hsp]
  case neg =>
  by_cases hd : cleanedField req.degree = ""
  case pos =>
    refine ⟨fun hs => absurd hs ?_, fun _ => ?_⟩ <;> simp [addDoctor, hf, hn, he, hp, hsp, hd]
  case neg =>
  by_cases hx : cleanedField req.experience = ""
  case pos =>
    refine ⟨fun hs => absurd hs ?_, fun _ => ?_⟩ <;>
      simp [addDoctor, hf, hn, he, hp, hsp, hd, hx]
  case neg =>
  by_cases hab : cleanedField req.about = ""
  case pos =>
    refine ⟨fun hs => absurd hs ?_, fun _ => ?_⟩ <;>
      simp [addDoctor, hf, hn, he, hp, hsp, hd, hx, hab]
  case neg =>
  by_cases hfe : cleanedField req.fees = ""
  case pos =>
    refine ⟨fun hs => absurd hs ?_, fun _ => ?_⟩ <;>
      simp [addDoctor, hf, hn, he, hp, hsp, hd, hx, hab, hfe]
  case neg =>
  by_cases had : req.address.getD "" = ""
  case pos =>
    refine ⟨fun hs => absurd hs ?_, fun _ => ?_⟩ <;>
      simp [addDoctor, hf, hn, he, hp, hsp, hd, hx, hab, hfe, had]
  case neg =>
  by_cases hie : isEmail (cleanedField req.email)
  case neg =>
    refine ⟨fun hs => absurd hs ?_, fun _ => ?_⟩ <;>
      simp [addDoctor, hf, hn, he, hp, hsp, hd, hx, hab, hfe, had, hie]
  case pos =>
  by_cases hlen : (cleanedField req.password).length < 8
  case pos =>
    refine ⟨fun hs => absurd hs ?_, fun _ => ?_⟩ <;>
      simp [addDoctor, hf, hn, he, hp, hsp, hd, hx, hab, hfe, had, hie, hlen]
  case neg =>
  by_cases hany : doctors.any (fun p => p.snd.email == cleanedField req.email) = true
  case pos =>
    refine ⟨fun hs => absurd hs ?_, fun _ => ?_⟩ <;>
      simp [addDoctor, hf, hn, he, hp, hsp, hd, hx, hab, hfe, had, hie, hlen, hany]
  case neg =>
  rcases hpa : parseAddress (req.address.getD "") with _ | pa
  · refine ⟨fun hs => absurd hs ?_, fun _ => ?_⟩ <;>
      simp [addDoctor, hf, hn, he, hp, hsp, hd, hx, hab, hfe, had, hie, hlen, hany, hpa]
  · have hres : addDoctor none isEmail hash imageUrl parseAddress toNumber now newId req
        doctors
        = ({ status := 201, success := true, message := some "Doctor added successfully",
             errMsg := none },
           doctors ++ [(newId,
             { name := cleanedField req.name, email := cleanedField req.email,
               image := imageUrl, password := hash (cleanedField req.password),
               speciality := cleanedField req.speciality, degree := cleanedField req.degree,
               experience := cleanedField req.experience, about := cleanedField req.about,
               fees := toNumber (cleanedField req.fees), address := pa, date := now,
               slots_booked := [] })]) := by
      simp [addDoctor, hf, hn, he, hp, hsp, hd, hx, hab, hfe, had, hie, hlen, hany, hpa]
    constructor
    · intro _
      refine ⟨hf, hn, he, hp, hsp, hd, hx, hab, hfe, had, hie, Nat.not_lt.mp hlen,
        Bool.not_eq_true _ ▸ eq_false_of_ne_true hany, ?_⟩
      refine ⟨_, by rw [hres], rfl, fun hne => hne⟩
    · intro hgate
      exfalso
      rcases hgate with h | h | h | h | h | h | h | h | h | h | h | h | h
      · rw [hf] at h; cases h
      · exact hn h
      · exact he h
      · exact hp h
      · exact hsp h
      · exact hd h
      · exact hx h
      · exact hab h
      · exact hfe h
      · exact had h
      · rw [hie] at h; cases h
      · exact hlen h
      · exact hany h

/-- Witness for C6: a fully valid concrete request creates a record whose
stored password is the tagged hash of the quote-cleaned password. -/
theorem C6_addDoctor_gates_and_hash_witness :
    sampleAddReq.hasFile = true ∧
    cleanedField sampleAddReq.name ≠ "" ∧ cleanedField sampleAddReq.email ≠ "" ∧
    cleanedField sampleAddReq.password ≠ "" ∧ cleanedField sampleAddReq.speciality ≠ "" ∧
    cleanedField sampleAddReq.degree ≠ "" ∧ cleanedField sampleAddReq.experience ≠ "" ∧
    cleanedField sampleAddReq.about ≠ "" ∧ cleanedField sampleAddReq.fees ≠ "" ∧
    sampleAddReq.address.getD "" ≠ "" ∧
    constTrueEmail (cleanedField sampleAddReq.email) = true ∧
    8 ≤ (cleanedField sampleAddReq.password).length ∧
    List.any ([] : DoctorDB) (fun p => p.snd.email == cleanedField sampleAddReq.email)
      = false ∧
    ∃ d, (addDoctor none constTrueEmail tagHash "img" idParseAddress constFees 0 "d9"
        sampleAddReq []).snd = [] ++ [("d9", d)] ∧
      d.password = tagHash (cleanedField sampleAddReq.password) ∧
      (tagHash (cleanedField sampleAddReq.password) ≠ cleanedField sampleAddReq.password →
        d.password ≠ cleanedField sampleAddReq.password) :=
  (C6_addDoctor_gates_and_hash constTrueEmail tagHash "img" idParseAddress constFees 0 "d9"
    sampleAddReq []).1 (by decide)

/-- C8 counterexample: the checkout-session endpoint does not answer a
thrown error with a body of the shape success false plus a `message` field
carrying the error's message: at the concrete error "boom" it answers
status 500 with no `message` key at all and the error's message under the
`error` key instead, so the claimed uniform strategy fails there. -/
theorem C8_checkout_catch_shape_counterexample :
    (createCheckoutSession (Except.error "boom") (some "apt1")).success = false ∧
    (createCheckoutSession (Except.error "boom") (some "apt1")).status = 500 ∧
    (createCheckoutSession (Except.error "boom") (some "apt1")).message = none ∧
    (createCheckoutSession (Except.error "boom") (some "apt1")).errMsg = some "boom" := by
  decide

/-- C8 amended: every controller catches a thrown internal error at its
boundary with success false and no retry, but the body shape is not
uniform: appointmentCancel answers 500 with the message under `message`;
allDoctors, appointmentsAdmin and adminDashboard answer 200 with the
message under `message`; addDoctor answers 500 with the fixed text
"Internal server error" under `message` and the error's message under
`error`; the checkout-session endpoint answers 500 with the error's
message under `error` and no `message` field. -/
theorem C8_catch_strategy_amended (e : String) (st : AdminState) (req : CancelReq)
    (doctors : DoctorDB) (users : List User) (appointments : AppointmentDB)
    (isEmail : String → Bool) (hash : String → String) (imageUrl : String)
    (parseAddress : String → Option String) (toNumber : String → Int) (now : Nat)
    (newId : String) (dreq : AddDoctorReq) (aid : String) (haid : aid ≠ "") :
    (appointmentCancel (some e) req st).fst
      = { status := 500, success := false, message := some e, errMsg := none } ∧
    (appointmentCancel (some e) req st).snd = st ∧
    allDoctors (some e) doctors
      = { status := 200, success := false, message := some e, doctors := none } ∧
    (appointmentsAdmin (some e) appointments).fst
      = { status := 200, success := false, message := some e, errMsg := none } ∧
    adminDashboard (some e) doctors users appointments
      = { status := 200, success := false, message := some e, dashData := none } ∧
    (addDoctor (some e) isEmail hash imageUrl parseAddress toNumber now newId dreq
        doctors).fst
      = { status := 500, success := false, message := some "Internal server error",
          errMsg := some e } ∧
    (addDoctor (some e) isEmail hash imageUrl parseAddress toNumber now newId dreq
        doctors).snd = doctors ∧
    createCheckoutSession (Except.error e) (some aid)
      = { status := 500, success := false, sessionId := none, message := none,
          errMsg := some e } := by
  refine ⟨rfl, rfl, rfl, rfl, rfl, rfl, rfl, ?_⟩
  simp [createCheckoutSession, truthyStr, haid]

/-- Witness for C8's amended statement at concrete inputs. -/
theorem C8_catch_strategy_amended_witness :
    (appointmentCancel (some "oops") { userId := some "u1", appointmentId := some "a1" }
        { appointments := sampleAppointmentDB, doctors := [("d1", sampleDoctor)] }).fst
      = { status := 500, success := false, message := some "oops", errMsg := none } ∧
    (appointmentCancel (some "oops") { userId := some "u1", appointmentId := some "a1" }
        { appointments := sampleAppointmentDB, doctors := [("d1", sampleDoctor)] }).snd
      = { appointments := sampleAppointmentDB, doctors := [("d1", sampleDoctor)] } ∧
    allDoctors (some "oops") [("d1", sampleDoctor)]
      = { status := 200, success := false, message := some "oops", doctors := none } ∧
    (appointmentsAdmin (some "oops") sampleAppointmentDB).fst
      = { status := 200, success := false, message := some "oops", errMsg := none } ∧
    adminDashboard (some "oops") [("d1", sampleDoctor)] [] sampleAppointmentDB
      = { status := 200, success := false, message := some "oops", dashData := none } ∧
    (addDoctor (some "oops") constTrueEmail tagHash "img" idParseAddress constFees 0 "d9"
        sampleAddReq [("d1", sampleDoctor)]).fst
      = { status := 500, success := false, message := some "Internal server error",
          errMsg := some "oops" } ∧
    (addDoctor (some "oops") constTrueEmail tagHash "img" idParseAddress constFees 0 "d9"
        sampleAddReq [("d1", sampleDoctor)]).snd = [("d1", sampleDoctor)] ∧
    createCheckoutSession (Except.error "oops") (some "apt1")
      = { status := 500, success := false, sessionId := none, message := none,
          errMsg := some "oops" } :=
  C8_catch_strategy_amended "oops"
    { appointments := sampleAppointmentDB, doctors := [("d1", sampleDoctor)] }
    { userId := some "u1", appointmentId := some "a1" } [("d1", sampleDoctor)] []
    sampleAppointmentDB constTrueEmail tagHash "img" idParseAddress constFees 0 "d9"
    sampleAddReq "apt1" (by decide)

/-- Projection of a keyed doctor collection to its public view. -/
theorem map_stripPassword_congr (d1 d2 : DoctorDB)
    (h : List.Forall₂
      (fun p q => p.fst = q.fst ∧ stripPassword p.snd = stripPassword q.snd) d1 d2) :
    d1.map (fun p => stripPassword p.snd) = d2.map (fun p => stripPassword p.snd) := by
  induction h with
  | nil => rfl
  | cons hpq _ ih => simp [hpq.2, ih]

/-- C9: the allDoctors response exposes exactly the password-stripped
projection of the doctor documents, so two databases that agree on every
id and on every field except the password produce identical responses. -/
theorem C9_allDoctors_password_independent (d1 d2 : DoctorDB)
    (h : List.Forall₂
      (fun p q => p.fst = q.fst ∧ stripPassword p.snd = stripPassword q.snd) d1 d2) :
    (allDoctors none d1).doctors = some (d1.map (fun p => stripPassword p.snd)) ∧
    allDoctors none d1 = allDoctors none d2 := by
  refine ⟨rfl, ?_⟩
  simp [allDoctors, map_stripPassword_congr d1 d2 h]

/-- Witness for C9: two one-doctor databases differing only in the stored
password give the same response. -/
theorem C9_allDoctors_password_independent_witness :
    (allDoctors none [("d1", sampleDoctor)]).doctors
      = some ([("d1", sampleDoctor)].map (fun p => stripPassword p.snd)) ∧
    allDoctors none [("d1", sampleDoctor)]
      = allDoctors none [("d1", { sampleDoctor with password := "other" })] :=
  C9_allDoctors_password_independent [("d1", sampleDoctor)]
    [("d1", { sampleDoctor with password := "other" })]
    (List.Forall₂.cons ⟨rfl, rfl⟩ List.Forall₂.nil)

/-- C10: the adminDashboard response counts the three collections and its
latestAppointments list is the last min(5, n) elements of the appointments
query result in reverse order — never more than 5 entries. -/
theorem C10_adminDashboard_shape (doctors : DoctorDB) (users : List User)
    (appointments : AppointmentDB) :
    ∃ dd, adminDashboard none doctors users appointments
        = { status := 200, success := true, message := none, dashData := some dd } ∧
      dd.doctors = doctors.length ∧
      dd.appointments = appointments.length ∧
      dd.patients = users.length ∧
      dd.latestAppointments.length = min 5 appointments.length ∧
      dd.latestAppointments.length ≤ 5 ∧
      dd.latestAppointments
        = ((appointments.map Prod.snd).drop (appointments.length - 5)).reverse := by
  refine ⟨_, rfl, rfl, by simp, rfl, by simp, ?_, ?_⟩
  · simp [List.length_take]
  · rw [List.take_reverse]
    simp
